import Mathlib

/-!
Verification of the mcp-hello-world-server repository: a shallow embedding of
its capability services (`src/utils/validators.ts`, `src/services/tool-service.ts`,
`src/services/resource-service.ts`, `src/services/prompt-service.ts`,
`src/utils/constants.ts`) and of its HTTP transport session machinery
(`src/server/transport.ts`), together with theorems settling the spec claims.

Conventions of the embedding:
- JavaScript runtime values, as far as the validators and tools observe them,
  are modelled by `JSValue` (string, number, boolean, null, undefined).
  Property access on a plain object is an association-list lookup returning
  `JSValue.undefined` when the key is absent, matching JS member access.
- `throw new Error(msg)` is modelled by `Except.error msg`.
- JS string length is modelled by Lean `String.length`; the two agree on the
  ASCII data this server manipulates.
- Switch statements over string scrutinees are modelled as chains of
  string-equality conditionals, which is their runtime meaning.
-/

namespace Mcp

/-- JavaScript value as observed by the validators and tool implementations. -/
inductive JSValue where
  | str (s : String)
  | num (n : Int)
  | boolean (b : Bool)
  | null
  | undefined
deriving DecidableEq

/-- JS truthiness: empty string, 0, false, null and undefined are falsy. -/
def truthy : JSValue → Bool
  | .str s => s != ""
  | .num n => n != 0
  | .boolean b => b
  | .null => false
  | .undefined => false

/-- JS template-literal stringification of a value. -/
def jsToString : JSValue → String
  | .str s => s
  | .num n => toString n
  | .boolean b => if b then "true" else "false"
  | .null => "null"
  | .undefined => "undefined"

/-- True exactly on `undefined` and `null`, i.e. the JS test
`value === undefined || value === null`. -/
def isNullish : JSValue → Bool
  | .null => true
  | .undefined => true
  | _ => false

/-- A `Record<string, unknown>` argument object, as an association list. -/
abbrev ToolArguments := List (String × JSValue)

/-- JS property access `args[k]`: the bound value, or `undefined` if absent. -/
def getArg (args : ToolArguments) (k : String) : JSValue :=
  match args.find? (fun p => p.1 == k) with
  | some p => p.2
  | none => .undefined

/-- ValidationResult from `src/utils/validators.ts`. -/
structure ValidationResult where
  isValid : Bool
  error : Option String
deriving DecidableEq

/-- Number.MAX_SAFE_INTEGER, the default `maxLength` of `validateString`. -/
def maxSafeInteger : Nat := 2 ^ 53 - 1

/-- The `validateString` function of `src/utils/validators.ts`: checks
required-ness (against null/undefined), string-ness, and length bounds. -/
def validateString (value : JSValue) (paramName : String) (required : Bool)
    (minLength : Nat) (maxLength : Nat) : ValidationResult :=
  if required && isNullish value then
    { isValid := false, error := some ("Parameter \x27" ++ paramName ++ "\x27 is required") }
  else if !required && isNullish value then
    { isValid := true, error := none }
  else
    match value with
    | .str s =>
      if s.length < minLength then
        { isValid := false
          error := some ("Parameter \x27" ++ paramName ++ "\x27 must be at least "
            ++ toString minLength ++ " characters long") }
      else if s.length > maxLength then
        { isValid := false
          error := some ("Parameter \x27" ++ paramName ++ "\x27 must be no more than "
            ++ toString maxLength ++ " characters long") }
      else
        { isValid := true, error := none }
    | _ =>
      { isValid := false
        error := some ("Parameter \x27" ++ paramName ++ "\x27 must be a string") }

/-- Object.values(TOOL_NAMES) from `src/utils/constants.ts`, declaration order. -/
def validTools : List String := ["say_hello", "get_time"]

/-- Object.values(RESOURCE_URIS) from `src/utils/constants.ts`. -/
def validUris : List String := ["data://users", "data://config", "text://welcome"]

/-- Object.values(PROMPT_NAMES) from `src/utils/constants.ts`. -/
def validPrompts : List String := ["greeting", "introduction"]

/-- Object.values(GREETING_STYLES) from `src/utils/constants.ts`. -/
def validStyles : List String := ["formal", "casual", "friendly"]

/-- Object.values(AUDIENCE_TYPES) from `src/utils/constants.ts`. -/
def validAudiences : List String := ["developer", "user", "manager"]

/-- The `validateSayHelloArgs` function: `name` required with length 1..100,
`message` optional with length 0..500 when present. -/
def validateSayHelloArgs (args : ToolArguments) : ValidationResult :=
  let nameValidation := validateString (getArg args "name") "name" true 1 100
  if !nameValidation.isValid then
    nameValidation
  else if getArg args "message" != .undefined then
    let messageValidation := validateString (getArg args "message") "message" false 0 500
    if !messageValidation.isValid then
      messageValidation
    else
      { isValid := true, error := none }
  else
    { isValid := true, error := none }

/-- The `validateGetTimeArgs` function: the get_time tool takes no arguments. -/
def validateGetTimeArgs (_args : ToolArguments) : ValidationResult :=
  { isValid := true, error := none }

/-- The `validateToolName` function: membership in Object.values(TOOL_NAMES). -/
def validateToolName (toolName : String) : ValidationResult :=
  if !(validTools.contains toolName) then
    { isValid := false
      error := some ("Unknown tool: " ++ toolName ++ ". Valid tools are: "
        ++ String.intercalate ", " validTools) }
  else
    { isValid := true, error := none }

/-- The `validateToolArguments` function: tool-name check, then the
per-tool argument validator. -/
def validateToolArguments (toolName : String) (args : ToolArguments) : ValidationResult :=
  let toolNameValidation := validateToolName toolName
  if !toolNameValidation.isValid then
    toolNameValidation
  else if toolName = "say_hello" then
    validateSayHelloArgs args
  else if toolName = "get_time" then
    validateGetTimeArgs args
  else
    { isValid := false, error := some ("No validation defined for tool: " ++ toolName) }

/-- One content item of a tool response (`MCPToolContent`). -/
structure MCPToolContent where
  type : String
  text : Option String
  data : Option String
  mimeType : Option String
deriving DecidableEq

/-- A text content item as built by the tool executors. -/
def textContent (t : String) : MCPToolContent :=
  { type := "text", text := some t, data := none, mimeType := none }

/-- A tool response (`MCPToolResponse`): content items plus optional isError. -/
structure MCPToolResponse where
  content : List MCPToolContent
  isError : Option Bool
deriving DecidableEq

/-- The state of a `ToolService` instance: its `validateArguments` field
(the logger carries no behaviour that the claims concern). -/
structure ToolServiceState where
  validateArguments : Bool
deriving DecidableEq

/-- The `ToolService` constructor resolution `config.validateArguments ?? true`. -/
def mkToolService (configValidateArguments : Option Bool) : ToolServiceState :=
  { validateArguments := configValidateArguments.getD true }

/-- The private `executeSayHello` method: a custom message is used only when
truthy (so an empty string falls back to the default greeting). -/
def executeSayHello (args : ToolArguments) : MCPToolResponse :=
  let personName := getArg args "name"
  let customMessage := getArg args "message"
  let greeting :=
    if truthy customMessage then
      jsToString customMessage ++ ", " ++ jsToString personName ++ "!"
    else
      "Hello, " ++ jsToString personName ++ "! Welcome to the MCP Hello World Server."
  { content := [textContent greeting], isError := none }

/-- The private `executeGetTime` method; `now` stands for
`new Date().toISOString()`, supplied as an explicit input. -/
def executeGetTime (now : String) : MCPToolResponse :=
  { content := [textContent ("Current server time: " ++ now)], isError := none }

/-- The switch over the tool name inside `executeTool`. -/
def executeToolDispatch (toolName : String) (args : ToolArguments) (now : String) :
    Except String MCPToolResponse :=
  if toolName = "say_hello" then
    Except.ok (executeSayHello args)
  else if toolName = "get_time" then
    Except.ok (executeGetTime now)
  else
    Except.error ("Unknown tool: " ++ toolName)

/-- The `ToolService.executeTool` method: optional argument validation
(throwing the validation error), then dispatch on the tool name. -/
def executeTool (svc : ToolServiceState) (toolName : String) (args : ToolArguments)
    (now : String) : Except String MCPToolResponse :=
  if svc.validateArguments then
    let validation := validateToolArguments toolName args
    if !validation.isValid then
      Except.error (validation.error.getD "")
    else
      executeToolDispatch toolName args now
  else
    executeToolDispatch toolName args now

/-- One entry of `contents` in a resource response (`MCPResourceContent`). -/
structure MCPResourceContent where
  uri : String
  mimeType : String
  text : Option String
deriving DecidableEq

/-- A resource response (`MCPResourceResponse`). -/
structure MCPResourceResponse where
  contents : List MCPResourceContent
deriving DecidableEq

/-- JSON.stringify(SAMPLE_DATA.users, null, 2) over the sample users of
`src/utils/constants.ts`. -/
def usersJson : String :=
  "[\n  \x7b\n    \"id\": 1,\n    \"name\": \"Alice\",\n    \"email\": \"alice@example.com\"\n  \x7d,\n  \x7b\n    \"id\": 2,\n    \"name\": \"Bob\",\n    \"email\": \"bob@example.com\"\n  \x7d\n]"

/-- JSON.stringify(SAMPLE_DATA.config, null, 2) over the sample config of
`src/utils/constants.ts`. -/
def configJson : String :=
  "\x7b\n  \"serverName\": \"Hello World MCP Server\",\n  \"version\": \"1.0.0\",\n  \"features\": [\n    \"tools\",\n    \"resources\",\n    \"prompts\"\n  ]\n\x7d"

/-- WELCOME_MESSAGE from `src/utils/constants.ts`. -/
def welcomeMessage : String :=
  "Welcome to the MCP Hello World Server!\n\nThis is a minimal example demonstrating:\n- Tools (say_hello, get_time)\n- Resources (users, config, welcome)\n- Prompts (greeting, introduction)\n\nTry using the MCP Inspector to explore all features!"

/-- The `validateResourceUri` function: membership in Object.values(RESOURCE_URIS). -/
def validateResourceUri (uri : String) : ValidationResult :=
  if !(validUris.contains uri) then
    { isValid := false
      error := some ("Unknown resource URI: " ++ uri ++ ". Valid URIs are: "
        ++ String.intercalate ", " validUris) }
  else
    { isValid := true, error := none }

/-- The state of a `ResourceService` instance: its `validateUris` field. -/
structure ResourceServiceState where
  validateUris : Bool
deriving DecidableEq

/-- The `ResourceService` constructor resolution `config.validateUris ?? true`. -/
def mkResourceService (configValidateUris : Option Bool) : ResourceServiceState :=
  { validateUris := configValidateUris.getD true }

/-- The switch over the URI inside `readResource`; each branch returns the
corresponding private reader's response (the `uri` echoed is `context.uri`,
i.e. the requested URI). -/
def readResourceDispatch (uri : String) : Except String MCPResourceResponse :=
  if uri = "data://users" then
    Except.ok { contents := [{ uri := uri, mimeType := "application/json", text := some usersJson }] }
  else if uri = "data://config" then
    Except.ok { contents := [{ uri := uri, mimeType := "application/json", text := some configJson }] }
  else if uri = "text://welcome" then
    Except.ok { contents := [{ uri := uri, mimeType := "text/plain", text := some welcomeMessage }] }
  else
    Except.error ("Unknown resource: " ++ uri)

/-- The `ResourceService.readResource` method: optional URI validation
(throwing the validation error), then dispatch on the URI. -/
def readResource (svc : ResourceServiceState) (uri : String) :
    Except String MCPResourceResponse :=
  if svc.validateUris then
    let validation := validateResourceUri uri
    if !validation.isValid then
      Except.error (validation.error.getD "")
    else
      readResourceDispatch uri
  else
    readResourceDispatch uri

/-- Content of one prompt message. -/
structure MCPPromptContent where
  type : String
  text : String
deriving DecidableEq

/-- One message of a prompt response (`MCPPromptMessage`). -/
structure MCPPromptMessage where
  role : String
  content : MCPPromptContent
deriving DecidableEq

/-- A prompt response (`MCPPromptResponse`). -/
structure MCPPromptResponse where
  description : Option String
  messages : List MCPPromptMessage
deriving DecidableEq

/-- The `validatePromptName` function: membership in Object.values(PROMPT_NAMES). -/
def validatePromptName (promptName : String) : ValidationResult :=
  if !(validPrompts.contains promptName) then
    { isValid := false
      error := some ("Unknown prompt: " ++ promptName ++ ". Valid prompts are: "
        ++ String.intercalate ", " validPrompts) }
  else
    { isValid := true, error := none }

/-- The `validateGreetingArgs` function: `name` required with length 1..100;
`style` optional but constrained to Object.values(GREETING_STYLES) when present. -/
def validateGreetingArgs (args : ToolArguments) : ValidationResult :=
  let nameValidation := validateString (getArg args "name") "name" true 1 100
  if !nameValidation.isValid then
    nameValidation
  else if getArg args "style" != .undefined then
    let styleValidation := validateString (getArg args "style") "style" false 0 maxSafeInteger
    if !styleValidation.isValid then
      styleValidation
    else if !(match getArg args "style" with
              | .str s => validStyles.contains s
              | _ => false) then
      { isValid := false
        error := some ("Parameter \x27style\x27 must be one of: "
          ++ String.intercalate ", " validStyles) }
    else
      { isValid := true, error := none }
  else
    { isValid := true, error := none }

/-- The `validateIntroductionArgs` function: `audience` optional but
constrained to Object.values(AUDIENCE_TYPES) when present. -/
def validateIntroductionArgs (args : ToolArguments) : ValidationResult :=
  if getArg args "audience" != .undefined then
    let audienceValidation := validateString (getArg args "audience") "audience" false 0 maxSafeInteger
    if !audienceValidation.isValid then
      audienceValidation
    else if !(match getArg args "audience" with
              | .str s => validAudiences.contains s
              | _ => false) then
      { isValid := false
        error := some ("Parameter \x27audience\x27 must be one of: "
          ++ String.intercalate ", " validAudiences) }
    else
      { isValid := true, error := none }
  else
    { isValid := true, error := none }

/-- The `validatePromptArguments` function: prompt-name check, then the
per-prompt argument validator. -/
def validatePromptArguments (promptName : String) (args : ToolArguments) : ValidationResult :=
  let promptNameValidation := validatePromptName promptName
  if !promptNameValidation.isValid then
    promptNameValidation
  else if promptName = "greeting" then
    validateGreetingArgs args
  else if promptName = "introduction" then
    validateIntroductionArgs args
  else
    { isValid := false, error := some ("No validation defined for prompt: " ++ promptName) }

/-- The state of a `PromptService` instance: its `validateArguments` field. -/
structure PromptServiceState where
  validateArguments : Bool
deriving DecidableEq

/-- The `PromptService` constructor resolution `config.validateArguments ?? true`. -/
def mkPromptService (configValidateArguments : Option Bool) : PromptServiceState :=
  { validateArguments := configValidateArguments.getD true }

/-- The private `generateGreetingPrompt` method: `args.name as string || "there"`
and `args.style as string || "friendly"` (JS short-circuit on truthiness),
then a switch over the style. -/
def generateGreetingPrompt (args : ToolArguments) : MCPPromptResponse :=
  let personName := if truthy (getArg args "name") then jsToString (getArg args "name") else "there"
  let style := if truthy (getArg args "style") then jsToString (getArg args "style") else "friendly"
  let pair :=
    if style = "formal" then
      ("Generate a formal greeting for " ++ personName
        ++ ". Use professional language and proper etiquette.",
       "Formal greeting for " ++ personName)
    else if style = "casual" then
      ("Generate a casual, relaxed greeting for " ++ personName
        ++ ". Keep it informal and approachable.",
       "Casual greeting for " ++ personName)
    else
      ("Generate a friendly and warm greeting for " ++ personName
        ++ ". Make it welcoming and positive.",
       "Friendly greeting for " ++ personName)
  { description := some pair.2
    messages := [{ role := "user", content := { type := "text", text := pair.1 } }] }

/-- The private `generateIntroductionPrompt` method: audience defaulted to
"developer" via JS truthiness, then a switch over the audience. -/
def generateIntroductionPrompt (args : ToolArguments) : MCPPromptResponse :=
  let audience := if truthy (getArg args "audience") then jsToString (getArg args "audience") else "developer"
  let pair :=
    if audience = "user" then
      ("Explain Model Context Protocol (MCP) in simple terms for end users. Focus on benefits and what it means for their AI experience.",
       "MCP introduction for end users")
    else if audience = "manager" then
      ("Explain Model Context Protocol (MCP) for technical managers. Focus on business value, integration benefits, and strategic advantages.",
       "MCP introduction for managers")
    else
      ("Explain Model Context Protocol (MCP) for developers. Include technical details, implementation concepts, and practical examples.",
       "MCP introduction for developers")
  { description := some pair.2
    messages := [{ role := "user", content := { type := "text", text := pair.1 } }] }

/-- The switch over the prompt name inside `generatePrompt`. -/
def generatePromptDispatch (promptName : String) (args : ToolArguments) :
    Except String MCPPromptResponse :=
  if promptName = "greeting" then
    Except.ok (generateGreetingPrompt args)
  else if promptName = "introduction" then
    Except.ok (generateIntroductionPrompt args)
  else
    Except.error ("Unknown prompt: " ++ promptName)

/-- The `PromptService.generatePrompt` method: optional argument validation
(throwing the validation error), then dispatch on the prompt name. -/
def generatePrompt (svc : PromptServiceState) (promptName : String) (args : ToolArguments) :
    Except String MCPPromptResponse :=
  if svc.validateArguments then
    let validation := validatePromptArguments promptName args
    if !validation.isValid then
      Except.error (validation.error.getD "")
    else
      generatePromptDispatch promptName args
  else
    generatePromptDispatch promptName args

/-- One property of a tool input schema, with its declared type. -/
structure SchemaProperty where
  name : String
  type : String
  description : String
deriving DecidableEq

/-- Input schema of a tool (`inputSchema` in `MCPTool`). -/
structure ToolInputSchema where
  type : String
  properties : List SchemaProperty
  required : Option (List String)
deriving DecidableEq

/-- A tool definition (`MCPTool`). -/
structure MCPTool where
  name : String
  description : String
  inputSchema : ToolInputSchema
deriving DecidableEq

/-- A resource definition (`MCPResource`). -/
structure MCPResource where
  uri : String
  mimeType : String
  name : String
  description : String
deriving DecidableEq

/-- One declared argument of a prompt (`MCPPromptArgument`). -/
structure MCPPromptArgument where
  name : String
  description : String
  required : Bool
deriving DecidableEq

/-- A prompt definition (`MCPPrompt`). -/
structure MCPPrompt where
  name : String
  description : String
  arguments : Option (List MCPPromptArgument)
deriving DecidableEq

/-- The `ToolService.getAvailableTools` method: a fresh literal list in
declaration order, independent of the service state. -/
def getAvailableTools (_svc : ToolServiceState) : List MCPTool :=
  [ { name := "say_hello"
      description := "Says hello to a person with an optional custom message"
      inputSchema :=
        { type := "object"
          properties :=
            [ { name := "name", type := "string"
                description := "The name of the person to greet" },
              { name := "message", type := "string"
                description := "Optional custom message" } ]
          required := some ["name"] } },
    { name := "get_time"
      description := "Returns the current server time"
      inputSchema := { type := "object", properties := [], required := none } } ]

/-- The `ResourceService.getAvailableResources` method: a fresh literal list
in declaration order, independent of the service state. -/
def getAvailableResources (_svc : ResourceServiceState) : List MCPResource :=
  [ { uri := "data://users", mimeType := "application/json"
      name := "User List", description := "A list of sample users" },
    { uri := "data://config", mimeType := "application/json"
      name := "Server Configuration", description := "Server configuration and metadata" },
    { uri := "text://welcome", mimeType := "text/plain"
      name := "Welcome Message", description := "A simple welcome message" } ]

/-- The `PromptService.getAvailablePrompts` method: a fresh literal list in
declaration order, independent of the service state. -/
def getAvailablePrompts (_svc : PromptServiceState) : List MCPPrompt :=
  [ { name := "greeting"
      description := "Generate a personalized greeting message"
      arguments := some
        [ { name := "name", description := "The name of the person to greet", required := true },
          { name := "style", description := "Greeting style (formal, casual, friendly)", required := false } ] },
    { name := "introduction"
      description := "Generate an introduction to MCP concepts"
      arguments := some
        [ { name := "audience", description := "Target audience (developer, user, manager)", required := false } ] } ]

/-!
The HTTP transport of `src/server/transport.ts` (`HttpTransport`). Its mutable
state consists of the `sseConnections` map, the `transports` record of
Streamable HTTP sessions, the `sseTransports` record of SSE sessions, the
per-session keep-alive interval timers, and the attached MCP server. Request
handlers and the SDK callbacks (`onsessioninitialized`, `onclose`, the
`close`/`error` listeners of an SSE response) are modelled as events of a
step function on this state. Plain JS objects used as string-keyed records
are modelled by `Registry`, an association list with unique keys.
-/

/-- A string-keyed record (JS object used as a map). -/
abbrev Registry (τ : Type) := List (String × τ)

namespace Registry

/-- Property read `r[k]`, as an Option. -/
def get? {τ : Type} (r : Registry τ) (k : String) : Option τ :=
  match r.find? (fun p => p.1 == k) with
  | some p => some p.2
  | none => none

/-- The JS truthiness test `!!r[k]` used before reusing a session. -/
def contains {τ : Type} (r : Registry τ) (k : String) : Bool :=
  (r.get? k).isSome

/-- Property assignment `r[k] = v` (overwrites any previous binding). -/
def set {τ : Type} (r : Registry τ) (k : String) (v : τ) : Registry τ :=
  (k, v) :: r.filter (fun p => p.1 != k)

/-- The `delete r[k]` operation; deleting an absent key is a no-op. -/
def delete {τ : Type} (r : Registry τ) (k : String) : Registry τ :=
  r.filter (fun p => p.1 != k)

/-- The `size` of a Map (used by the `/health` route on `sseConnections`). -/
def size {τ : Type} (r : Registry τ) : Nat :=
  r.length

end Registry

/-- HttpTransportOptions as passed to the `HttpTransport` constructor;
every field is optional. -/
structure HttpTransportOptions where
  port : Option Nat
  host : Option String
  cors : Option Bool
  maxConnections : Option Nat
  connectionTimeout : Option Nat
deriving DecidableEq

/-- The options record after the constructor merge. -/
structure ResolvedHttpOptions where
  port : Nat
  host : String
  cors : Bool
  maxConnections : Nat
  connectionTimeout : Nat
deriving DecidableEq

/-- The `HttpTransport` constructor merge `{ ...defaults, ...options }`
(defaults: port 3001, host "0.0.0.0", cors false, maxConnections 100,
connectionTimeout 30000). -/
def resolveHttpOptions (o : HttpTransportOptions) : ResolvedHttpOptions :=
  { port := o.port.getD 3001
    host := o.host.getD "0.0.0.0"
    cors := o.cors.getD false
    maxConnections := o.maxConnections.getD 100
    connectionTimeout := o.connectionTimeout.getD 30000 }

/-- Result of parsing the raw body of a POST /mcp request. -/
inductive ParsedBody where
  | unparsed
  | noMethod
  | withMethod (m : String)
deriving DecidableEq

/-- Mutable state of an `HttpTransport` instance. -/
structure HttpTransportState where
  options : ResolvedHttpOptions
  mcpServerAttached : Bool
  sseConnections : Registry Unit
  transports : Registry Unit
  sseTransports : Registry Unit
  pingTimers : Registry Unit
  sseHandlersAttached : Registry Unit
  cleanupRuns : List String
deriving DecidableEq

/-- State of a freshly constructed `HttpTransport`: empty registries, no
attached MCP server, options merged with the constructor defaults. -/
def initState (o : HttpTransportOptions) : HttpTransportState :=
  { options := resolveHttpOptions o
    mcpServerAttached := false
    sseConnections := []
    transports := []
    sseTransports := []
    pingTimers := []
    sseHandlersAttached := []
    cleanupRuns := [] }

/-- Inbound happenings the transport reacts to: HTTP requests on its routes
and the close callbacks of the underlying streams. Fresh identifiers the
code draws from `Date.now()`/randomness or from the SDK are carried by the
event (`genSessionId`). -/
inductive HttpEvent where
  | setMcpServer
  | health
  | postMcp (headerSessionId : Option String) (body : ParsedBody) (genSessionId : String)
  | getMcp (headerSessionId : Option String)
  | deleteMcp (headerSessionId : Option String)
  | sseOpen (genSessionId : String)
  | sseClose (sessionId : String)
  | sseError (sessionId : String)
  | postMessages (sessionId : Option String)
  | streamableClose (sessionId : String)
  | stop
deriving DecidableEq

/-- What a handler sends back on the wire (or `noResponse` for callbacks).
`capacityError` is the HTTP 503 `TooManyConnections` rejection of the spec's
admission-control vocabulary; it is part of the response type so that
admission claims are statable. -/
inductive HttpResult where
  | health (connections : Nat)
  | handled (sessionId : String)
  | sseStream (sessionId : String)
  | jsonRpcFallback
  | badRequest
  | notFound
  | serverError
  | capacityError
  | noResponse
deriving DecidableEq

/-- The shared `cleanupTransport` closure of `handleSSE`: clear the ping
interval, remove the session from `sseTransports`. Each execution is logged
in `cleanupRuns`. The `close`/`error` listeners stay attached afterwards. -/
def cleanupTransport (s : HttpTransportState) (sid : String) : HttpTransportState :=
  { s with pingTimers := s.pingTimers.delete sid
           sseTransports := s.sseTransports.delete sid
           cleanupRuns := s.cleanupRuns ++ [sid] }

/-- The POST /mcp paths taken when no live session is addressed by header:
initialize creates and registers a session (via `onsessioninitialized`)
when an MCP server is attached, other bodies with a truthy `method` fall
back to the JSON-RPC handler, anything else is a 400. -/
def postMcpBody (s : HttpTransportState) (body : ParsedBody) (genSid : String) :
    HttpTransportState × HttpResult :=
  match body with
  | .withMethod m =>
    if m = "initialize" then
      if s.mcpServerAttached then
        ({ s with transports := s.transports.set genSid () }, .handled genSid)
      else
        (s, .serverError)
    else if m != "" then
      (s, .jsonRpcFallback)
    else
      (s, .badRequest)
  | _ => (s, .badRequest)

/-- One step of the transport: the handler of `src/server/transport.ts` for
the given event, returning the next state and the wire response. -/
def step (s : HttpTransportState) (e : HttpEvent) : HttpTransportState × HttpResult :=
  match e with
  | .setMcpServer => ({ s with mcpServerAttached := true }, .noResponse)
  | .health => (s, .health s.sseConnections.size)
  | .postMcp headerSid body genSid =>
    match headerSid with
    | some sid =>
      if s.transports.contains sid then
        (s, .handled sid)
      else
        postMcpBody s body genSid
    | none => postMcpBody s body genSid
  | .getMcp headerSid =>
    match headerSid with
    | some sid =>
      if s.transports.contains sid then (s, .handled sid) else (s, .badRequest)
    | none => (s, .badRequest)
  | .deleteMcp headerSid =>
    match headerSid with
    | some sid =>
      if s.transports.contains sid then (s, .handled sid) else (s, .badRequest)
    | none => (s, .badRequest)
  | .sseOpen genSid =>
    if s.mcpServerAttached then
      ({ s with sseTransports := s.sseTransports.set genSid ()
                pingTimers := s.pingTimers.set genSid ()
                sseHandlersAttached := s.sseHandlersAttached.set genSid () },
       .sseStream genSid)
    else
      ({ s with sseTransports := s.sseTransports.set genSid () }, .serverError)
  | .sseClose sid =>
    if s.sseHandlersAttached.contains sid then
      (cleanupTransport s sid, .noResponse)
    else
      (s, .noResponse)
  | .sseError sid =>
    if s.sseHandlersAttached.contains sid then
      (cleanupTransport s sid, .noResponse)
    else
      (s, .noResponse)
  | .postMessages sidOpt =>
    match sidOpt with
    | some sid =>
      if s.sseTransports.contains sid then (s, .handled sid) else (s, .notFound)
    | none => (s, .badRequest)
  | .streamableClose sid =>
    if s.transports.contains sid then
      ({ s with transports := s.transports.delete sid }, .noResponse)
    else
      (s, .noResponse)
  | .stop => ({ s with sseConnections := [] }, .noResponse)

/-- Left fold of `step` over a list of events, discarding responses. -/
def runEvents (s : HttpTransportState) (es : List HttpEvent) : HttpTransportState :=
  es.foldl (fun st e => (step st e).1) s

/-! Helper lemmas about `Registry`, the embedding of JS string-keyed records. -/

theorem Registry.get?_set_self {τ : Type} (r : Registry τ) (k : String) (v : τ) :
    (r.set k v).get? k = some v := by
  simp [Registry.set, Registry.get?, List.find?_cons]

theorem Registry.get?_delete_self {τ : Type} (r : Registry τ) (k : String) :
    (r.delete k).get? k = none := by
  have h : ∀ p ∈ r.filter (fun p => p.1 != k), ¬((fun p => p.1 == k) p = true) := by
    intro p hp
    have hmem := List.of_mem_filter hp
    simp only [bne_iff_ne, ne_eq, decide_eq_true_eq] at hmem
    simp [hmem]
  simp [Registry.delete, Registry.get?, List.find?_eq_none.mpr h]

theorem Registry.contains_set_self {τ : Type} (r : Registry τ) (k : String) (v : τ) :
    (r.set k v).contains k = true := by
  simp [Registry.contains, Registry.get?_set_self]

theorem Registry.contains_delete_self {τ : Type} (r : Registry τ) (k : String) :
    (r.delete k).contains k = false := by
  simp [Registry.contains, Registry.get?_delete_self]

theorem Registry.delete_delete {τ : Type} (r : Registry τ) (k : String) :
    (r.delete k).delete k = r.delete k := by
  simp [Registry.delete, List.filter_filter]

theorem Registry.delete_of_contains_eq_false {τ : Type} (r : Registry τ) (k : String)
    (h : r.contains k = false) : r.delete k = r := by
  rw [Registry.delete, List.filter_eq_self]
  intro p hp
  cases hfind : r.find? (fun p => p.1 == k) with
  | some q => simp [Registry.contains, Registry.get?, hfind] at h
  | none =>
    have := List.find?_eq_none.mp hfind p hp
    simpa [bne] using this

/-- The claim C2 concerns the session registries of the HTTP transport:
`transports` written by `onsessioninitialized` and `onclose`, and
`sseTransports` written by `handleSSE` and `cleanupTransport`. -/
theorem C2_session_registry_lifecycle (s : HttpTransportState) (genSid : String)
    (hattach : s.mcpServerAttached = true) :
    (((step s (.postMcp none (.withMethod "initialize") genSid)).1).transports.get? genSid
      = some ()) ∧
    ((step ((step s (.postMcp none (.withMethod "initialize") genSid)).1)
        (.getMcp (some genSid))).2 = .handled genSid) ∧
    (((step ((step s (.postMcp none (.withMethod "initialize") genSid)).1)
        (.streamableClose genSid)).1).transports.get? genSid = none) ∧
    ((step ((step ((step s (.postMcp none (.withMethod "initialize") genSid)).1)
        (.streamableClose genSid)).1) (.getMcp (some genSid))).2 = .badRequest) ∧
    ((step ((step ((step s (.postMcp none (.withMethod "initialize") genSid)).1)
        (.streamableClose genSid)).1) (.streamableClose genSid)).1
      = (step ((step s (.postMcp none (.withMethod "initialize") genSid)).1)
        (.streamableClose genSid)).1) ∧
    (((step s (.sseOpen genSid)).1).sseTransports.get? genSid = some ()) ∧
    ((step ((step s (.sseOpen genSid)).1) (.postMessages (some genSid))).2
      = .handled genSid) ∧
    (((step ((step s (.sseOpen genSid)).1) (.sseClose genSid)).1).sseTransports.get? genSid
      = none) ∧
    ((step ((step ((step s (.sseOpen genSid)).1) (.sseClose genSid)).1)
        (.postMessages (some genSid))).2 = .notFound) ∧
    (((step ((step ((step s (.sseOpen genSid)).1) (.sseClose genSid)).1)
        (.sseClose genSid)).1).sseTransports
      = ((step ((step s (.sseOpen genSid)).1) (.sseClose genSid)).1).sseTransports) := by
  have hcreate :
      (step s (.postMcp none (.withMethod "initialize") genSid)).1
        = { s with transports := s.transports.set genSid () } := by
    simp [step, postMcpBody, hattach]
  have hopen :
      (step s (.sseOpen genSid)).1
        = { s with sseTransports := s.sseTransports.set genSid ()
                   pingTimers := s.pingTimers.set genSid ()
                   sseHandlersAttached := s.sseHandlersAttached.set genSid () } := by
    simp [step, hattach]
  refine ⟨?_, ?_, ?_, ?_, ?_, ?_, ?_, ?_, ?_, ?_⟩
  · rw [hcreate]; exact Registry.get?_set_self _ _ _
  · rw [hcreate]
    simp [step, Registry.contains_set_self]
  · rw [hcreate]
    simp [step, Registry.contains_set_self, Registry.get?_delete_self]
  · rw [hcreate]
    simp [step, Registry.contains_set_self, Registry.contains_delete_self]
  · rw [hcreate]
    simp [step, Registry.contains_set_self, Registry.contains_delete_self]
  · rw [hopen]; exact Registry.get?_set_self _ _ _
  · rw [hopen]
    simp [step, Registry.contains_set_self]
  · rw [hopen]
    simp [step, cleanupTransport, Registry.contains_set_self, Registry.get?_delete_self]
  · rw [hopen]
    simp [step, cleanupTransport, Registry.contains_set_self, Registry.contains_delete_self]
  · rw [hopen]
    simp [step, cleanupTransport, Registry.contains_set_self, Registry.delete_delete]

/-- Options object with no field set, so the constructor defaults apply. -/
def noOptions : HttpTransportOptions :=
  { port := none, host := none, cors := none, maxConnections := none, connectionTimeout := none }

/-- A transport right after construction and `setMCPServer`. -/
def attachedState : HttpTransportState :=
  (step (initState noOptions) .setMcpServer).1

/-- Witness for C2 at a concrete freshly attached transport and session id. -/
theorem C2_session_registry_lifecycle_witness :
    attachedState.mcpServerAttached = true ∧
    ((step ((step attachedState (.postMcp none (.withMethod "initialize") "sess_1")).1)
        (.getMcp (some "sess_1"))).2 = .handled "sess_1") :=
  ⟨by decide, (C2_session_registry_lifecycle attachedState "sess_1" (by decide)).2.1⟩

/-- Every step of the transport preserves emptiness of `sseConnections`:
no request-handling path ever inserts into that map. -/
theorem sseConnections_step (s : HttpTransportState) (e : HttpEvent)
    (h : s.sseConnections = []) : ((step s e).1).sseConnections = [] := by
  cases e <;>
    simp only [step, postMcpBody, cleanupTransport] <;>
    (repeat' split) <;>
    simp_all

/-- Emptiness of `sseConnections` is preserved by any event sequence. -/
theorem runEvents_sseConnections (es : List HttpEvent) (s : HttpTransportState)
    (h : s.sseConnections = []) : (runEvents s es).sseConnections = [] := by
  induction es generalizing s with
  | nil => exact h
  | cons e es ih =>
    simp only [runEvents, List.foldl_cons]
    exact ih _ (sseConnections_step s e h)

/-- The claim C10: in every reachable state of the transport, the
`sseConnections` map is empty (nothing ever inserts into it; live SSE
sessions live in `sseTransports`), so GET /health always reports
`connections = 0`. -/
theorem C10_health_connections_zero (o : HttpTransportOptions) (es : List HttpEvent) :
    (runEvents (initState o) es).sseConnections = [] ∧
    (step (runEvents (initState o) es) .health).2 = .health 0 := by
  have h0 : (runEvents (initState o) es).sseConnections = [] :=
    runEvents_sseConnections es (initState o) rfl
  exact ⟨h0, by simp [step, Registry.size, h0]⟩

/-- Witness for C10 on a concrete trace that opens two SSE sessions and a
streamable session before probing /health. -/
theorem C10_health_connections_zero_witness :
    (step (runEvents (initState noOptions)
      [.setMcpServer, .sseOpen "sess_a", .sseOpen "sess_b",
       .postMcp none (.withMethod "initialize") "sess_c"]) .health).2 = .health 0 :=
  (C10_health_connections_zero noOptions
    [.setMcpServer, .sseOpen "sess_a", .sseOpen "sess_b",
     .postMcp none (.withMethod "initialize") "sess_c"]).2

/-- Options configuring a maximum of 1 concurrent session. -/
def c1Options : HttpTransportOptions :=
  { port := none, host := none, cors := none, maxConnections := some 1,
    connectionTimeout := none }

/-- A transport configured with `maxConnections = 1`, MCP server attached,
already holding one live streamable session, i.e. at its configured
capacity. -/
def c1State : HttpTransportState :=
  runEvents (initState c1Options)
    [.setMcpServer, .postMcp none (.withMethod "initialize") "sess_a"]

/-- Counterexample to C1: at the configured capacity (`maxConnections = 1`,
one live session), a further initialize request and a further SSE open are
both accepted and create sessions; neither is rejected with a capacity
error. -/
theorem C1_counterexample :
    c1State.transports.size = c1State.options.maxConnections ∧
    (step c1State (.postMcp none (.withMethod "initialize") "sess_b")).2
      = .handled "sess_b" ∧
    (step c1State (.postMcp none (.withMethod "initialize") "sess_b")).2
      ≠ .capacityError ∧
    ((step c1State (.postMcp none (.withMethod "initialize") "sess_b")).1).transports.size
      = 2 ∧
    (step c1State (.sseOpen "sess_c")).2 = .sseStream "sess_c" ∧
    (step c1State (.sseOpen "sess_c")).2 ≠ .capacityError := by
  decide

/-- Amended C1: `maxConnections` is merged into the options (default 100)
but never consulted; no handler ever returns the capacity error, and
session-creating requests are accepted in every state in which the MCP
server is attached, however many sessions are live. -/
theorem C1_amended_no_admission_control (s : HttpTransportState) (genSid : String)
    (e : HttpEvent) (hattach : s.mcpServerAttached = true) :
    (step s e).2 ≠ .capacityError ∧
    (step s (.postMcp none (.withMethod "initialize") genSid)).2 = .handled genSid ∧
    ((step s (.postMcp none (.withMethod "initialize") genSid)).1).transports.contains genSid
      = true ∧
    (step s (.sseOpen genSid)).2 = .sseStream genSid ∧
    ((step s (.sseOpen genSid)).1).sseTransports.contains genSid = true ∧
    (resolveHttpOptions noOptions).maxConnections = 100 := by
  refine ⟨?_, ?_, ?_, ?_, ?_, by decide⟩
  · cases e <;>
      simp only [step, postMcpBody, cleanupTransport] <;>
      (repeat' split) <;>
      simp_all
  · simp [step, postMcpBody, hattach]
  · simp [step, postMcpBody, hattach, Registry.contains_set_self]
  · simp [step, hattach]
  · simp [step, hattach, Registry.contains_set_self]

/-- Witness for the amended C1 at the capacity-saturated state of the
counterexample. -/
theorem C1_amended_no_admission_control_witness :
    c1State.mcpServerAttached = true ∧
    (step c1State (.postMcp none (.withMethod "initialize") "sess_b")).2
      = .handled "sess_b" :=
  ⟨by decide,
    (C1_amended_no_admission_control c1State "sess_b" .health (by decide)).2.1⟩

/-- Event trace in which one SSE session suffers a server error and then the
client close, the order Node emits them in when a stream errors. -/
def c3Trace : List HttpEvent :=
  [.setMcpServer, .sseOpen "sess_sse", .sseError "sess_sse", .sseClose "sess_sse"]

/-- Counterexample to C3: when both the error and the close event fire for
the same SSE session, `cleanupTransport` executes twice for that session,
not exactly once (there is no once-only guard; the listeners stay attached
and each invocation reruns the cleanup body). -/
theorem C3_counterexample :
    (runEvents (initState noOptions) c3Trace).cleanupRuns = ["sess_sse", "sess_sse"] ∧
    (runEvents (initState noOptions) c3Trace).cleanupRuns.length ≠ 1 := by
  decide

/-- An SSE stream-ending event for session `sid`: client close or server
error. -/
def isSseLifecycleEnd (e : HttpEvent) (sid : String) : Prop :=
  e = .sseClose sid ∨ e = .sseError sid

/-- Amended C3: on each close or error event the cleanup executes (so with
both events it executes twice), the first execution releases the session
and its keep-alive timer, and re-execution is idempotent — the second run
leaves the session registry and the timer set unchanged. -/
theorem C3_amended_cleanup_idempotent (s : HttpTransportState) (sid : String)
    (e1 e2 : HttpEvent) (h1 : isSseLifecycleEnd e1 sid) (h2 : isSseLifecycleEnd e2 sid)
    (hreg : s.sseHandlersAttached.contains sid = true) :
    ((step s e1).1).sseTransports.get? sid = none ∧
    ((step s e1).1).pingTimers.get? sid = none ∧
    ((step s e1).1).cleanupRuns = s.cleanupRuns ++ [sid] ∧
    ((step ((step s e1).1) e2).1).cleanupRuns = s.cleanupRuns ++ [sid] ++ [sid] ∧
    ((step ((step s e1).1) e2).1).sseTransports = ((step s e1).1).sseTransports ∧
    ((step ((step s e1).1) e2).1).pingTimers = ((step s e1).1).pingTimers := by
  have hs1 : (step s e1).1 = cleanupTransport s sid := by
    rcases h1 with h | h <;> subst h <;> simp [step, hreg]
  have hreg1 : (cleanupTransport s sid).sseHandlersAttached.contains sid = true := by
    simpa [cleanupTransport] using hreg
  have hs2 : (step (cleanupTransport s sid) e2).1
      = cleanupTransport (cleanupTransport s sid) sid := by
    rcases h2 with h | h <;> subst h <;> simp [step, hreg1]
  rw [hs1, hs2]
  refine ⟨?_, ?_, ?_, ?_, ?_, ?_⟩
  · exact Registry.get?_delete_self _ _
  · exact Registry.get?_delete_self _ _
  · rfl
  · rfl
  · simp [cleanupTransport, Registry.delete_delete]
  · simp [cleanupTransport, Registry.delete_delete]

/-- Witness for the amended C3: a concrete open SSE session hit by a server
error and then the client close. -/
theorem C3_amended_cleanup_idempotent_witness :
    (((step (runEvents (initState noOptions) [.setMcpServer, .sseOpen "sess_sse"])
        (.sseError "sess_sse")).1).sseTransports.get? "sess_sse" = none) :=
  (C3_amended_cleanup_idempotent
    (runEvents (initState noOptions) [.setMcpServer, .sseOpen "sess_sse"]) "sess_sse"
    (.sseError "sess_sse") (.sseClose "sess_sse")
    (Or.inr rfl) (Or.inl rfl) (by decide)).1

/-- The claim C4: argument validation is configurable and defaults to
enabled (`config.validateArguments ?? true`); with validation enabled,
calling say_hello without its required `name` argument fails with the
InvalidArguments error before the tool logic runs; with validation
disabled, the same call is not failed at the validation step (it goes
straight to the tool logic). -/
theorem C4_validation_toggle (args : ToolArguments) (now : String)
    (habsent : getArg args "name" = .undefined) :
    (mkToolService none).validateArguments = true ∧
    executeTool (mkToolService (some true)) "say_hello" args now
      = Except.error "Parameter \x27name\x27 is required" ∧
    executeTool (mkToolService (some false)) "say_hello" args now
      = Except.ok (executeSayHello args) := by
  refine ⟨rfl, ?_, ?_⟩
  · simp [executeTool, mkToolService, validateToolArguments, validateToolName, validTools,
      validateSayHelloArgs, validateString, isNullish, habsent]
  · simp [executeTool, mkToolService, executeToolDispatch]

/-- Witness for C4 with the empty argument object. -/
theorem C4_validation_toggle_witness :
    getArg [] "name" = .undefined ∧
    executeTool (mkToolService (some true)) "say_hello" [] "t"
      = Except.error "Parameter \x27name\x27 is required" :=
  ⟨rfl, (C4_validation_toggle [] "t" rfl).2.1⟩

/-- The claim C5: invoking a capability by an unregistered key throws:
executeTool for a tool name outside TOOL_NAMES, readResource for a URI
outside RESOURCE_URIS, generatePrompt for a prompt name outside
PROMPT_NAMES — whether or not validation is enabled (the validators reject
the key, and the dispatch switches have no matching case either). -/
theorem C5_unknown_capability :
    (∀ (svc : ToolServiceState) (key : String) (args : ToolArguments) (now : String),
      validTools.contains key = false →
      ∃ msg, executeTool svc key args now = Except.error msg) ∧
    (∀ (svc : ResourceServiceState) (key : String),
      validUris.contains key = false →
      ∃ msg, readResource svc key = Except.error msg) ∧
    (∀ (svc : PromptServiceState) (key : String) (args : ToolArguments),
      validPrompts.contains key = false →
      ∃ msg, generatePrompt svc key args = Except.error msg) := by
  refine ⟨?_, ?_, ?_⟩
  · intro svc key args now h
    have hmem : key ∉ validTools := by simpa using h
    have hk : key ≠ "say_hello" ∧ key ≠ "get_time" := by
      constructor <;> intro hkey <;> subst hkey <;> exact absurd h (by decide)
    by_cases hv : svc.validateArguments
    · exact ⟨"Unknown tool: " ++ key ++ ". Valid tools are: "
        ++ String.intercalate ", " validTools,
        by simp [executeTool, hv, validateToolArguments, validateToolName, hmem]⟩
    · simp only [Bool.not_eq_true] at hv
      exact ⟨"Unknown tool: " ++ key,
        by simp [executeTool, hv, executeToolDispatch, hk.1, hk.2]⟩
  · intro svc key h
    have hmem : key ∉ validUris := by simpa using h
    have hk : key ≠ "data://users" ∧ key ≠ "data://config" ∧ key ≠ "text://welcome" := by
      refine ⟨?_, ?_, ?_⟩ <;> intro hkey <;> subst hkey <;> exact absurd h (by decide)
    by_cases hv : svc.validateUris
    · exact ⟨"Unknown resource URI: " ++ key ++ ". Valid URIs are: "
        ++ String.intercalate ", " validUris,
        by simp [readResource, hv, validateResourceUri, hmem]⟩
    · simp only [Bool.not_eq_true] at hv
      exact ⟨"Unknown resource: " ++ key,
        by simp [readResource, hv, readResourceDispatch, hk.1, hk.2.1, hk.2.2]⟩
  · intro svc key args h
    have hmem : key ∉ validPrompts := by simpa using h
    have hk : key ≠ "greeting" ∧ key ≠ "introduction" := by
      constructor <;> intro hkey <;> subst hkey <;> exact absurd h (by decide)
    by_cases hv : svc.validateArguments
    · exact ⟨"Unknown prompt: " ++ key ++ ". Valid prompts are: "
        ++ String.intercalate ", " validPrompts,
        by simp [generatePrompt, hv, validatePromptArguments, validatePromptName, hmem]⟩
    · simp only [Bool.not_eq_true] at hv
      exact ⟨"Unknown prompt: " ++ key,
        by simp [generatePrompt, hv, generatePromptDispatch, hk.1, hk.2]⟩

/-- Witness for C5 at the key `__nonexistent__` against all three services. -/
theorem C5_unknown_capability_witness :
    (∃ msg, executeTool { validateArguments := true } "__nonexistent__" [] "t"
      = Except.error msg) ∧
    (∃ msg, readResource { validateUris := true } "__nonexistent__" = Except.error msg) ∧
    (∃ msg, generatePrompt { validateArguments := true } "__nonexistent__" []
      = Except.error msg) :=
  ⟨C5_unknown_capability.1 { validateArguments := true } "__nonexistent__" [] "t" (by decide),
   C5_unknown_capability.2.1 { validateUris := true } "__nonexistent__" (by decide),
   C5_unknown_capability.2.2 { validateArguments := true } "__nonexistent__" [] (by decide)⟩

/-- The claim C6: executing any registered tool on arguments that pass its
validation yields a successful response whose content sequence is
non-empty and whose isError flag is absent or false. -/
theorem C6_round_trip_invoke (svc : ToolServiceState) (name : String)
    (args : ToolArguments) (now : String)
    (hname : validTools.contains name = true)
    (hvalid : (validateToolArguments name args).isValid = true) :
    ∃ r, executeTool svc name args now = Except.ok r ∧
      1 ≤ r.content.length ∧ (r.isError = none ∨ r.isError = some false) := by
  have hcases : name = "say_hello" ∨ name = "get_time" := by
    by_cases h1 : name = "say_hello"
    · exact Or.inl h1
    · by_cases h2 : name = "get_time"
      · exact Or.inr h2
      · exfalso
        simp [validTools, List.contains_cons, beq_iff_eq, h1, h2] at hname
  rcases hcases with hn | hn <;> subst hn
  · refine ⟨executeSayHello args, ?_, by simp [executeSayHello],
      Or.inl (by simp [executeSayHello])⟩
    by_cases hv : svc.validateArguments
    · simp [executeTool, hv, hvalid, executeToolDispatch]
    · simp only [Bool.not_eq_true] at hv
      simp [executeTool, hv, executeToolDispatch]
  · refine ⟨executeGetTime now, ?_, by simp [executeGetTime],
      Or.inl (by simp [executeGetTime])⟩
    by_cases hv : svc.validateArguments
    · simp [executeTool, hv, hvalid, executeToolDispatch]
    · simp only [Bool.not_eq_true] at hv
      simp [executeTool, hv, executeToolDispatch]

/-- Witness for C6 at say_hello with the valid argument set {name: Alice}. -/
theorem C6_round_trip_invoke_witness :
    ∃ r, executeTool { validateArguments := true } "say_hello"
        [("name", JSValue.str "Alice")] "t" = Except.ok r ∧
      1 ≤ r.content.length ∧ (r.isError = none ∨ r.isError = some false) :=
  C6_round_trip_invoke { validateArguments := true } "say_hello"
    [("name", JSValue.str "Alice")] "t" (by decide) (by decide)

/-- The claim C7: calling say_hello with {name: Alice} and no custom
message yields a single text content item carrying the default greeting,
which contains the substring Alice. -/
theorem C7_say_hello_alice :
    executeTool { validateArguments := true } "say_hello"
        [("name", JSValue.str "Alice")] "2025-01-01T00:00:00.000Z"
      = Except.ok
        { content := [textContent "Hello, Alice! Welcome to the MCP Hello World Server."]
          isError := none } ∧
    ∃ pre post,
      "Hello, Alice! Welcome to the MCP Hello World Server." = pre ++ "Alice" ++ post :=
  ⟨by rfl, "Hello, ", "! Welcome to the MCP Hello World Server.", by rfl⟩

/-- The claim C8: the three list operations are pure functions of nothing
but the static catalog — they do not depend on any service state, and they
return the catalog in declaration order on every call. -/
theorem C8_list_determinism (ts1 ts2 : ToolServiceState) (rs1 rs2 : ResourceServiceState)
    (ps1 ps2 : PromptServiceState) :
    getAvailableTools ts1 = getAvailableTools ts2 ∧
    getAvailableResources rs1 = getAvailableResources rs2 ∧
    getAvailablePrompts ps1 = getAvailablePrompts ps2 ∧
    (getAvailableTools ts1).map MCPTool.name = ["say_hello", "get_time"] ∧
    (getAvailableResources rs1).map MCPResource.uri
      = ["data://users", "data://config", "text://welcome"] ∧
    (getAvailablePrompts ps1).map MCPPrompt.name = ["greeting", "introduction"] :=
  ⟨rfl, rfl, rfl, rfl, rfl, rfl⟩

/-- Witness for C8 across two differently configured service instances. -/
theorem C8_list_determinism_witness :
    getAvailableTools { validateArguments := true }
      = getAvailableTools { validateArguments := false } :=
  (C8_list_determinism { validateArguments := true } { validateArguments := false }
    { validateUris := true } { validateUris := false }
    { validateArguments := true } { validateArguments := false }).1

/-- The claim C9: a present-but-empty `message` argument passes validation
(the optional message admits length 0), yet say_hello answers with the
default greeting exactly as if no message had been supplied, because the
implementation tests the custom message for truthiness, and the empty
string is falsy. -/
theorem C9_empty_message_default_greeting (n : String) (now : String)
    (hmin : 1 ≤ n.length) (hmax : n.length ≤ 100) :
    (validateToolArguments "say_hello"
        [("name", JSValue.str n), ("message", JSValue.str "")]).isValid = true ∧
    executeTool { validateArguments := true } "say_hello"
        [("name", JSValue.str n), ("message", JSValue.str "")] now
      = Except.ok { content := [textContent ("Hello, " ++ n
          ++ "! Welcome to the MCP Hello World Server.")], isError := none } ∧
    executeTool { validateArguments := true } "say_hello"
        [("name", JSValue.str n), ("message", JSValue.str "")] now
      = executeTool { validateArguments := true } "say_hello"
        [("name", JSValue.str n)] now := by
  have h1 : ¬(n.length < 1) := by omega
  have h2 : ¬(n.length > 100) := by omega
  have hval2 : validateSayHelloArgs [("name", JSValue.str n), ("message", JSValue.str "")]
      = { isValid := true, error := none } := by
    simp [validateSayHelloArgs, validateString, getArg, isNullish, h1, h2]
  have hval1 : validateSayHelloArgs [("name", JSValue.str n)]
      = { isValid := true, error := none } := by
    simp [validateSayHelloArgs, validateString, getArg, isNullish, h1, h2]
  have hex2 : executeTool { validateArguments := true } "say_hello"
      [("name", JSValue.str n), ("message", JSValue.str "")] now
      = Except.ok { content := [textContent ("Hello, " ++ n
          ++ "! Welcome to the MCP Hello World Server.")], isError := none } := by
    simp [executeTool, validateToolArguments, validateToolName, validTools, hval2,
      executeToolDispatch, executeSayHello, getArg, truthy, jsToString, textContent]
  have hex1 : executeTool { validateArguments := true } "say_hello"
      [("name", JSValue.str n)] now
      = Except.ok { content := [textContent ("Hello, " ++ n
          ++ "! Welcome to the MCP Hello World Server.")], isError := none } := by
    simp [executeTool, validateToolArguments, validateToolName, validTools, hval1,
      executeToolDispatch, executeSayHello, getArg, truthy, jsToString, textContent]
  refine ⟨?_, hex2, hex2.trans hex1.symm⟩
  simp [validateToolArguments, validateToolName, validTools, hval2]

/-- Witness for C9 at name Alice. -/
theorem C9_empty_message_default_greeting_witness :
    executeTool { validateArguments := true } "say_hello"
        [("name", JSValue.str "Alice"), ("message", JSValue.str "")] "t"
      = executeTool { validateArguments := true } "say_hello"
        [("name", JSValue.str "Alice")] "t" :=
  (C9_empty_message_default_greeting "Alice" "t" (by decide) (by decide)).2.2

end Mcp
